import Mathlib

/-!
Shallow embedding of the security configuration loader of
`packages/@aws-accelerator/config/lib/security-config.ts`
(landing-zone-accelerator-on-aws).

The file embeds, in order:
* a model of parsed YAML documents (the values produced by `js-yaml`'s
  `yaml.load`, which is an external library and is therefore abstracted as a
  `YamlLoader` parameter wherever the source calls it);
* the runtime-type combinators of `./common-types` (`t.boolean`,
  `t.nonEmptyString`, `t.enums`, `t.optional`, `t.array`, `t.parse`, ...),
  which are code of this repository that is not part of the given sources and
  are therefore modelled from the spec;
* the schema `SecurityConfigTypes.*` exactly as declared in
  `security-config.ts`;
* the configuration classes with their default field values, the
  `SecurityConfig` class, its constructor (`Object.assign` shallow merge),
  `getDelegatedAccountName`, `load` and `loadFromString`.

Logging (`logger.error`) is modelled by returning the list of logged lines
next to the result, and thrown exceptions by `Except.error`.
-/

namespace LZA

/-- Model of a YAML document after `yaml.load`: scalars, sequences and
mappings.  Numbers are modelled as integers (every numeric literal occurring
in the security configuration schema is integral). -/
inductive Yaml where
  | null : Yaml
  | bool (b : Bool) : Yaml
  | num (n : Int) : Yaml
  | str (s : String) : Yaml
  | arr (xs : List Yaml) : Yaml
  | obj (fields : List (String × Yaml)) : Yaml

/-- Mapping view of a YAML value: `some fields` exactly when the value is a
mapping. -/
def Yaml.asObj : Yaml → Option (List (String × Yaml))
  | .obj fields => some fields
  | _ => none

/-- Sequence view of a YAML value: `some xs` exactly when the value is a
sequence. -/
def Yaml.asArr : Yaml → Option (List Yaml)
  | .arr xs => some xs
  | _ => none

/-- Look up a key in a YAML mapping (first binding wins, as for JavaScript
object property access on the object built by `js-yaml`). -/
def findField (fields : List (String × Yaml)) (key : String) : Option Yaml :=
  match fields.find? (fun p => p.1 == key) with
  | some p => some p.2
  | none => none

/-- Decode a required field of an interface: the key must be present and its
value must decode. -/
def reqField {α : Type} (fields : List (String × Yaml)) (key : String)
    (d : Yaml → Option α) : Option α :=
  match findField fields key with
  | some v => d v
  | none => none

/-- Decode an optional field of an interface (`t.optional`): an absent key
decodes to `none`; a present key must decode with the inner type.  Modelled
from the spec: optional schema fields may be omitted from the document. -/
def optField {α : Type} (fields : List (String × Yaml)) (key : String)
    (d : Yaml → Option α) : Option (Option α) :=
  match findField fields key with
  | none => some none
  | some v => (d v).map some

namespace t

/-- Modelled from the spec: the `t.boolean` runtime type of
`./common-types` accepts exactly boolean scalars. -/
def boolean : Yaml → Option Bool
  | .bool b => some b
  | _ => none

/-- Modelled from the spec: the `t.string` runtime type of `./common-types`
accepts exactly string scalars. -/
def string : Yaml → Option String
  | .str s => some s
  | _ => none

/-- Modelled from the spec: the `t.nonEmptyString` runtime type of
`./common-types` accepts exactly non-empty string scalars. -/
def nonEmptyString : Yaml → Option String
  | .str s => if s.isEmpty then none else some s
  | _ => none

/-- Modelled from the spec: the `t.number` runtime type of `./common-types`
accepts exactly numeric scalars. -/
def number : Yaml → Option Int
  | .num n => some n
  | _ => none

/-- Modelled from the spec: `t.enums` of `./common-types` accepts exactly
the string scalars that are members of the declared list of values. -/
def enums (allowed : List String) : Yaml → Option String
  | .str s => if s ∈ allowed then some s else none
  | _ => none

/-- Modelled from the spec: a region (`t.region` of `./common-types`) is an
AWS region name; the model accepts any non-empty string. -/
def region : Yaml → Option String :=
  nonEmptyString

/-- Decode every element of a sequence; fails when any element fails. -/
def seqElems {α : Type} (d : Yaml → Option α) : List Yaml → Option (List α)
  | [] => some []
  | x :: xs =>
    match d x, seqElems d xs with
    | some a, some as => some (a :: as)
    | _, _ => none

/-- Modelled from the spec: the `t.array` runtime type of `./common-types`
accepts exactly sequences whose elements all satisfy the element type. -/
def array {α : Type} (d : Yaml → Option α) : Yaml → Option (List α)
  | .arr xs => seqElems d xs
  | _ => none

/-- Decode the entries of a dictionary with non-empty string keys and
values satisfying the given decoder. -/
def dictEntries {α : Type} (d : Yaml → Option α) :
    List (String × Yaml) → Option (List (String × α))
  | [] => some []
  | (k, v) :: rest =>
    if k.isEmpty then none
    else
      match d v, dictEntries d rest with
      | some a, some as => some ((k, a) :: as)
      | _, _ => none

/-- Modelled from the spec: `t.dictionary(t.nonEmptyString, t.nonEmptyString)`
of `./common-types` accepts mappings from non-empty strings to values of the
value type. -/
def dictionary {α : Type} (d : Yaml → Option α) : Yaml → Option (List (String × α))
  | .obj fields => dictEntries d fields
  | _ => none

/-- Modelled from the spec: `t.DeploymentTargets` of `./common-types`, a
reference to one or more AWS accounts or organizational units that a
configuration block applies to. -/
structure DeploymentTargets where
  organizationalUnits : Option (List String)
  accounts : Option (List String)

/-- Modelled from the spec: the default `new t.DeploymentTargets()` carries
empty lists of organizational units and accounts. -/
def DeploymentTargets.default : DeploymentTargets :=
  { organizationalUnits := some [], accounts := some [] }

/-- Modelled from the spec: the `t.deploymentTargets` runtime type of
`./common-types`. -/
def deploymentTargets (v : Yaml) : Option DeploymentTargets :=
  match v.asObj with
    | none => none
    | some fields =>
      match optField fields "organizationalUnits" (array nonEmptyString),
            optField fields "accounts" (array nonEmptyString) with
      | some ous, some accs => some { organizationalUnits := ous, accounts := accs }
      | _, _ => none

/-- Modelled from the spec: `t.ShareTargets` of `./common-types`, the
organizational units and accounts a document set is shared with. -/
structure ShareTargets where
  organizationalUnits : Option (List String)
  accounts : Option (List String)

/-- Modelled from the spec: the default `new t.ShareTargets()` carries empty
lists of organizational units and accounts. -/
def ShareTargets.default : ShareTargets :=
  { organizationalUnits := some [], accounts := some [] }

/-- Modelled from the spec: the `t.shareTargets` runtime type of
`./common-types`. -/
def shareTargets (v : Yaml) : Option ShareTargets :=
  match v.asObj with
    | none => none
    | some fields =>
      match optField fields "organizationalUnits" (array nonEmptyString),
            optField fields "accounts" (array nonEmptyString) with
      | some ous, some accs => some { organizationalUnits := ous, accounts := accs }
      | _, _ => none

/-- Modelled from the spec: `t.LifeCycleRule` of `./common-types`.  The spec
does not describe the shape of S3 lifecycle rules, so the model keeps the raw
document. -/
structure LifeCycleRule where
  raw : Yaml

/-- Modelled from the spec: the `t.lifecycleRuleConfig` runtime type of
`./common-types`; the model accepts any document. -/
def lifecycleRuleConfig (v : Yaml) : Option LifeCycleRule :=
  some { raw := v }

/-- Modelled from the spec: `t.Tag` of `./common-types`.  The spec does not
describe the shape of tags, so the model keeps the raw document. -/
structure Tag where
  raw : Yaml

/-- Modelled from the spec: the `t.tag` runtime type of `./common-types`; the
model accepts any document. -/
def tag (v : Yaml) : Option Tag :=
  some { raw := v }

/-- Modelled from the spec: `t.parse(type, content)` of `./common-types`
validates the document against the runtime type and returns the typed value;
on a schema mismatch it throws a validation error (whose message is the
validation diagnostic, not the loader's generic message). -/
def parse {α : Type} (ty : Yaml → Option α) (v : Yaml) : Except String α :=
  match ty v with
  | some a => Except.ok a
  | none => Except.error "security configuration does not match the schema"

end t

/-- Shape of `SecurityConfigTypes.snsSubscriptionConfig`
(`security-config.ts`): notification level and subscribing email. -/
structure SnsSubscriptionConfig where
  level : String
  email : String

/-- Shape of `SecurityConfigTypes.s3PublicAccessBlockConfig`. -/
structure S3PublicAccessBlockConfig where
  enable : Bool
  excludeAccounts : Option (List String)

/-- Shape of `SecurityConfigTypes.scpRevertChangesConfig`. -/
structure ScpRevertChangesConfig where
  enable : Bool
  snsTopicName : Option String

/-- Shape of `SecurityConfigTypes.keyConfig`.  The source field called
`alias` is a reserved word in Lean and is embedded as `keyAlias`. -/
structure KeyConfig where
  name : String
  keyAlias : Option String
  policy : Option String
  description : Option String
  enableKeyRotation : Option Bool
  enabled : Option Bool
  removalPolicy : Option String
  deploymentTargets : t.DeploymentTargets

/-- Shape of `SecurityConfigTypes.macieConfig`. -/
structure MacieConfig where
  enable : Bool
  excludeRegions : Option (List String)
  policyFindingsPublishingFrequency : String
  publishSensitiveDataFindings : Bool
  lifecycleRules : Option (List t.LifeCycleRule)

/-- Shape of `SecurityConfigTypes.guardDutyS3ProtectionConfig`. -/
structure GuardDutyS3ProtectionConfig where
  enable : Bool
  excludeRegions : Option (List String)

/-- Shape of `SecurityConfigTypes.guardDutyEksProtectionConfig`. -/
structure GuardDutyEksProtectionConfig where
  enable : Bool
  excludeRegions : Option (List String)

/-- Shape of `SecurityConfigTypes.guardDutyExportFindingsConfig`. -/
structure GuardDutyExportFindingsConfig where
  enable : Bool
  overrideExisting : Option Bool
  destinationType : String
  exportFrequency : String

/-- Shape of `SecurityConfigTypes.guardDutyConfig`. -/
structure GuardDutyConfig where
  enable : Bool
  excludeRegions : Option (List String)
  s3Protection : GuardDutyS3ProtectionConfig
  eksProtection : Option GuardDutyEksProtectionConfig
  exportConfiguration : GuardDutyExportFindingsConfig
  lifecycleRules : Option (List t.LifeCycleRule)

/-- Shape of `SecurityConfigTypes.auditManagerDefaultReportsDestinationConfig`. -/
structure AuditManagerDefaultReportsDestinationConfig where
  enable : Bool
  destinationType : String

/-- Shape of `SecurityConfigTypes.auditManagerConfig`. -/
structure AuditManagerConfig where
  enable : Bool
  excludeRegions : Option (List String)
  defaultReportsConfiguration : AuditManagerDefaultReportsDestinationConfig
  lifecycleRules : Option (List t.LifeCycleRule)

/-- Shape of `SecurityConfigTypes.detectiveConfig`. -/
structure DetectiveConfig where
  enable : Bool
  excludeRegions : Option (List String)

/-- Shape of `SecurityConfigTypes.securityHubStandardConfig`. -/
structure SecurityHubStandardConfig where
  name : String
  deploymentTargets : Option t.DeploymentTargets
  enable : Bool
  controlsToDisable : Option (List String)

/-- Shape of `SecurityConfigTypes.securityHubConfig`. -/
structure SecurityHubConfig where
  enable : Bool
  regionAggregation : Option Bool
  snsTopicName : Option String
  notificationLevel : Option String
  excludeRegions : Option (List String)
  standards : List SecurityHubStandardConfig

/-- Shape of `SecurityConfigTypes.ebsDefaultVolumeEncryptionConfig`. -/
structure EbsDefaultVolumeEncryptionConfig where
  enable : Bool
  kmsKey : Option String
  excludeRegions : Option (List String)

/-- Shape of `SecurityConfigTypes.documentConfig`. -/
structure DocumentConfig where
  name : String
  template : String

/-- Shape of `SecurityConfigTypes.documentSetConfig`. -/
structure DocumentSetConfig where
  shareTargets : t.ShareTargets
  documents : List DocumentConfig

/-- Shape of `SecurityConfigTypes.ssmAutomationConfig`. -/
structure SsmAutomationConfig where
  excludeRegions : Option (List String)
  documentSets : List DocumentSetConfig

/-- Shape of `SecurityConfigTypes.centralSecurityServicesConfig`.  The
`snsSubscriptions` field is not part of the schema interface (it exists only
on the `CentralSecurityServicesConfig` class), so a schema-parsed value never
carries it; it is `Option`-typed to represent both shapes. -/
structure CentralSecurityServicesConfig where
  delegatedAdminAccount : String
  ebsDefaultVolumeEncryption : EbsDefaultVolumeEncryptionConfig
  s3PublicAccessBlock : S3PublicAccessBlockConfig
  scpRevertChangesConfig : Option ScpRevertChangesConfig
  snsSubscriptions : Option (List SnsSubscriptionConfig)
  macie : MacieConfig
  guardduty : GuardDutyConfig
  auditManager : Option AuditManagerConfig
  detective : Option DetectiveConfig
  securityHub : SecurityHubConfig
  ssmAutomation : SsmAutomationConfig

/-- Shape of `SecurityConfigTypes.keyManagementServiceConfig`. -/
structure KeyManagementServiceConfig where
  keySets : List KeyConfig

/-- Shape of `SecurityConfigTypes.accessAnalyzerConfig`. -/
structure AccessAnalyzerConfig where
  enable : Bool

/-- Shape of `SecurityConfigTypes.iamPasswordPolicyConfig`. -/
structure IamPasswordPolicyConfig where
  allowUsersToChangePassword : Bool
  hardExpiry : Bool
  requireUppercaseCharacters : Bool
  requireLowercaseCharacters : Bool
  requireSymbols : Bool
  requireNumbers : Bool
  minimumPasswordLength : Int
  passwordReusePrevention : Int
  maxPasswordAge : Int

/-- Shape of `SecurityConfigTypes.customRuleLambdaType`. -/
structure CustomRuleLambdaType where
  sourceFilePath : String
  handler : String
  runtime : String
  rolePolicyFile : String
  timeout : Option Int

/-- Shape of `SecurityConfigTypes.triggeringResourceType`. -/
structure TriggeringResourceType where
  lookupType : String
  lookupKey : String
  lookupValue : List String

/-- Shape of `SecurityConfigTypes.customRuleConfigType`. -/
structure CustomRuleConfigType where
  lambda : CustomRuleLambdaType
  periodic : Option Bool
  maximumExecutionFrequency : String
  configurationChanges : Option Bool
  triggeringResources : TriggeringResourceType

/-- Shape of `SecurityConfigTypes.remediationParametersConfigType`. -/
structure RemediationParametersConfigType where
  name : String
  value : String
  type : String

/-- Shape of `SecurityConfigTypes.configRuleRemediationType`. -/
structure ConfigRuleRemediationType where
  rolePolicyFile : String
  automatic : Bool
  targetId : String
  targetAccountName : Option String
  targetVersion : Option String
  targetDocumentLambda : Option CustomRuleLambdaType
  retryAttemptSeconds : Option Int
  maximumAutomaticAttempts : Option Int
  parameters : Option (List RemediationParametersConfigType)

/-- Shape of `SecurityConfigTypes.configRule`. -/
structure ConfigRule where
  name : String
  description : Option String
  identifier : Option String
  inputParameters : Option (List (String × String))
  complianceResourceTypes : Option (List String)
  type : Option String
  customRule : Option CustomRuleConfigType
  remediation : Option ConfigRuleRemediationType
  tags : Option (List t.Tag)

/-- Shape of `SecurityConfigTypes.awsConfigRuleSet`. -/
structure AwsConfigRuleSet where
  deploymentTargets : t.DeploymentTargets
  rules : List ConfigRule

/-- Shape of `SecurityConfigTypes.awsConfigAggregation`. -/
structure AwsConfigAggregation where
  enable : Bool
  delegatedAdminAccount : Option String

/-- Shape of `SecurityConfigTypes.awsConfig`. -/
structure AwsConfig where
  enableConfigurationRecorder : Bool
  enableDeliveryChannel : Option Bool
  overrideExisting : Option Bool
  aggregation : Option AwsConfigAggregation
  ruleSets : List AwsConfigRuleSet

/-- Shape of `SecurityConfigTypes.metricConfig`. -/
structure MetricConfig where
  filterName : String
  logGroupName : String
  filterPattern : String
  metricNamespace : String
  metricName : String
  metricValue : String

/-- Shape of `SecurityConfigTypes.metricSetConfig`. -/
structure MetricSetConfig where
  regions : Option (List String)
  deploymentTargets : t.DeploymentTargets
  metrics : List MetricConfig

/-- Shape of `SecurityConfigTypes.alarmConfig`.  The source field called
`namespace` is a reserved word in Lean and is embedded as `nameSpace`. -/
structure AlarmConfig where
  alarmName : String
  alarmDescription : String
  snsAlertLevel : Option String
  snsTopicName : Option String
  metricName : String
  nameSpace : String
  comparisonOperator : String
  evaluationPeriods : Int
  period : Int
  statistic : String
  threshold : Int
  treatMissingData : String

/-- Shape of `SecurityConfigTypes.alarmSetConfig`. -/
structure AlarmSetConfig where
  regions : Option (List String)
  deploymentTargets : t.DeploymentTargets
  alarms : List AlarmConfig

/-- Shape of `SecurityConfigTypes.encryptionConfig`. -/
structure EncryptionConfig where
  kmsKeyName : Option String
  kmsKeyArn : Option String
  useLzaManagedKey : Option Bool

/-- Shape of `SecurityConfigTypes.logGroupsConfig`. -/
structure LogGroupsConfig where
  logGroupName : String
  logRetentionInDays : Int
  terminationProtected : Option Bool
  encryption : Option EncryptionConfig
  deploymentTargets : t.DeploymentTargets

/-- Shape of `SecurityConfigTypes.cloudWatchConfig`. -/
structure CloudWatchConfig where
  metricSets : List MetricSetConfig
  alarmSets : List AlarmSetConfig
  logGroups : Option (List LogGroupsConfig)

/-- Shape of `SecurityConfigTypes.securityConfig`, the value produced by
`t.parse` and consumed by the `SecurityConfig` constructor.  Every top-level
field is `Option`-typed because `Object.assign` only copies the properties
actually present on the parsed object; the schema decoder always fills the
five required fields. -/
structure SecurityConfigValues where
  centralSecurityServices : Option CentralSecurityServicesConfig
  accessAnalyzer : Option AccessAnalyzerConfig
  iamPasswordPolicy : Option IamPasswordPolicyConfig
  awsConfig : Option AwsConfig
  cloudWatch : Option CloudWatchConfig
  keyManagementService : Option KeyManagementServiceConfig

namespace SecurityConfigTypes

/-- Decoder of `SecurityConfigTypes.snsSubscriptionConfig`: the runtime
semantics of the `t.interface` declaration in `security-config.ts`. -/
def snsSubscriptionConfig (v : Yaml) : Option SnsSubscriptionConfig :=
  match v.asObj with
    | none => none
    | some o =>
      match reqField o "level" t.nonEmptyString,
            reqField o "email" t.nonEmptyString with
      | some level, some email => some { level := level, email := email }
      | _, _ => none

/-- Decoder of `SecurityConfigTypes.s3PublicAccessBlockConfig`. -/
def s3PublicAccessBlockConfig (v : Yaml) : Option S3PublicAccessBlockConfig :=
  match v.asObj with
    | none => none
    | some o =>
      match reqField o "enable" t.boolean,
            optField o "excludeAccounts" (t.array t.string) with
      | some enable, some excl => some { enable := enable, excludeAccounts := excl }
      | _, _ => none

/-- Decoder of `SecurityConfigTypes.scpRevertChangesConfig`. -/
def scpRevertChangesConfig (v : Yaml) : Option ScpRevertChangesConfig :=
  match v.asObj with
    | none => none
    | some o =>
      match reqField o "enable" t.boolean,
            optField o "snsTopicName" t.nonEmptyString with
      | some enable, some topic => some { enable := enable, snsTopicName := topic }
      | _, _ => none

/-- Decoder of `SecurityConfigTypes.keyConfig`. -/
def keyConfig (v : Yaml) : Option KeyConfig :=
  match v.asObj with
    | none => none
    | some o =>
      match reqField o "name" t.nonEmptyString,
            optField o "alias" t.nonEmptyString,
            optField o "policy" t.nonEmptyString,
            optField o "description" t.nonEmptyString,
            optField o "enableKeyRotation" t.boolean,
            optField o "enabled" t.boolean,
            optField o "removalPolicy" (t.enums ["destroy", "retain", "snapshot"]),
            reqField o "deploymentTargets" t.deploymentTargets with
      | some name, some al, some pol, some desc, some rot, some en, some rem, some dt =>
        some { name := name, keyAlias := al, policy := pol, description := desc,
               enableKeyRotation := rot, enabled := en, removalPolicy := rem,
               deploymentTargets := dt }
      | _, _, _, _, _, _, _, _ => none

/-- Decoder of `SecurityConfigTypes.macieConfig`, whose
`policyFindingsPublishingFrequency` field is
`t.enums('FrequencyType', ['FIFTEEN_MINUTES', 'ONE_HOUR', 'SIX_HOURS'])`. -/
def macieConfig (v : Yaml) : Option MacieConfig :=
  match v.asObj with
    | none => none
    | some o =>
      match reqField o "enable" t.boolean,
            optField o "excludeRegions" (t.array t.region),
            reqField o "policyFindingsPublishingFrequency"
              (t.enums ["FIFTEEN_MINUTES", "ONE_HOUR", "SIX_HOURS"]),
            reqField o "publishSensitiveDataFindings" t.boolean,
            optField o "lifecycleRules" (t.array t.lifecycleRuleConfig) with
      | some enable, some excl, some freq, some pub, some lcr =>
        some { enable := enable, excludeRegions := excl,
               policyFindingsPublishingFrequency := freq,
               publishSensitiveDataFindings := pub, lifecycleRules := lcr }
      | _, _, _, _, _ => none

/-- Decoder of `SecurityConfigTypes.guardDutyS3ProtectionConfig`. -/
def guardDutyS3ProtectionConfig (v : Yaml) : Option GuardDutyS3ProtectionConfig :=
  match v.asObj with
    | none => none
    | some o =>
      match reqField o "enable" t.boolean,
            optField o "excludeRegions" (t.array t.region) with
      | some enable, some excl => some { enable := enable, excludeRegions := excl }
      | _, _ => none

/-- Decoder of `SecurityConfigTypes.guardDutyEksProtectionConfig`. -/
def guardDutyEksProtectionConfig (v : Yaml) : Option GuardDutyEksProtectionConfig :=
  match v.asObj with
    | none => none
    | some o =>
      match reqField o "enable" t.boolean,
            optField o "excludeRegions" (t.array t.region) with
      | some enable, some excl => some { enable := enable, excludeRegions := excl }
      | _, _ => none

/-- Decoder of `SecurityConfigTypes.guardDutyExportFindingsConfig`. -/
def guardDutyExportFindingsConfig (v : Yaml) : Option GuardDutyExportFindingsConfig :=
  match v.asObj with
    | none => none
    | some o =>
      match reqField o "enable" t.boolean,
            optField o "overrideExisting" t.boolean,
            reqField o "destinationType" (t.enums ["S3"]),
            reqField o "exportFrequency"
              (t.enums ["FIFTEEN_MINUTES", "ONE_HOUR", "SIX_HOURS"]) with
      | some enable, some ov, some dest, some freq =>
        some { enable := enable, overrideExisting := ov,
               destinationType := dest, exportFrequency := freq }
      | _, _, _, _ => none

/-- Decoder of `SecurityConfigTypes.guardDutyConfig`. -/
def guardDutyConfig (v : Yaml) : Option GuardDutyConfig :=
  match v.asObj with
    | none => none
    | some o =>
      match reqField o "enable" t.boolean,
            optField o "excludeRegions" (t.array t.region),
            reqField o "s3Protection" guardDutyS3ProtectionConfig,
            optField o "eksProtection" guardDutyEksProtectionConfig,
            reqField o "exportConfiguration" guardDutyExportFindingsConfig,
            optField o "lifecycleRules" (t.array t.lifecycleRuleConfig) with
      | some enable, some excl, some s3p, some eks, some exp, some lcr =>
        some { enable := enable, excludeRegions := excl, s3Protection := s3p,
               eksProtection := eks, exportConfiguration := exp, lifecycleRules := lcr }
      | _, _, _, _, _, _ => none

/-- Decoder of `SecurityConfigTypes.auditManagerDefaultReportsDestinationConfig`. -/
def auditManagerDefaultReportsDestinationConfig (v : Yaml) :
    Option AuditManagerDefaultReportsDestinationConfig :=
  match v.asObj with
    | none => none
    | some o =>
      match reqField o "enable" t.boolean,
            reqField o "destinationType" (t.enums ["S3"]) with
      | some enable, some dest => some { enable := enable, destinationType := dest }
      | _, _ => none

/-- Decoder of `SecurityConfigTypes.auditManagerConfig`. -/
def auditManagerConfig (v : Yaml) : Option AuditManagerConfig :=
  match v.asObj with
    | none => none
    | some o =>
      match reqField o "enable" t.boolean,
            optField o "excludeRegions" (t.array t.region),
            reqField o "defaultReportsConfiguration"
              auditManagerDefaultReportsDestinationConfig,
            optField o "lifecycleRules" (t.array t.lifecycleRuleConfig) with
      | some enable, some excl, some rep, some lcr =>
        some { enable := enable, excludeRegions := excl,
               defaultReportsConfiguration := rep, lifecycleRules := lcr }
      | _, _, _, _ => none

/-- Decoder of `SecurityConfigTypes.detectiveConfig`. -/
def detectiveConfig (v : Yaml) : Option DetectiveConfig :=
  match v.asObj with
    | none => none
    | some o =>
      match reqField o "enable" t.boolean,
            optField o "excludeRegions" (t.array t.region) with
      | some enable, some excl => some { enable := enable, excludeRegions := excl }
      | _, _ => none

/-- The five SecurityHub standard names declared by
`SecurityConfigTypes.securityHubStandardConfig` in `security-config.ts`. -/
def securityHubStandardNames : List String :=
  ["AWS Foundational Security Best Practices v1.0.0",
   "CIS AWS Foundations Benchmark v1.2.0",
   "CIS AWS Foundations Benchmark v1.4.0",
   "NIST Special Publication 800-53 Revision 5",
   "PCI DSS v3.2.1"]

/-- Decoder of `SecurityConfigTypes.securityHubStandardConfig`, whose `name`
field is an enum over the five declared standard names. -/
def securityHubStandardConfig (v : Yaml) : Option SecurityHubStandardConfig :=
  match v.asObj with
    | none => none
    | some o =>
      match reqField o "name" (t.enums securityHubStandardNames),
            optField o "deploymentTargets" t.deploymentTargets,
            reqField o "enable" t.boolean,
            optField o "controlsToDisable" (t.array t.nonEmptyString) with
      | some name, some dt, some enable, some ctd =>
        some { name := name, deploymentTargets := dt, enable := enable,
               controlsToDisable := ctd }
      | _, _, _, _ => none

/-- Decoder of `SecurityConfigTypes.securityHubConfig`. -/
def securityHubConfig (v : Yaml) : Option SecurityHubConfig :=
  match v.asObj with
    | none => none
    | some o =>
      match reqField o "enable" t.boolean,
            optField o "regionAggregation" t.boolean,
            optField o "snsTopicName" t.string,
            optField o "notificationLevel" t.string,
            optField o "excludeRegions" (t.array t.region),
            reqField o "standards" (t.array securityHubStandardConfig) with
      | some enable, some ra, some topic, some lvl, some excl, some stds =>
        some { enable := enable, regionAggregation := ra, snsTopicName := topic,
               notificationLevel := lvl, excludeRegions := excl, standards := stds }
      | _, _, _, _, _, _ => none

/-- Decoder of `SecurityConfigTypes.ebsDefaultVolumeEncryptionConfig`. -/
def ebsDefaultVolumeEncryptionConfig (v : Yaml) : Option EbsDefaultVolumeEncryptionConfig :=
  match v.asObj with
    | none => none
    | some o =>
      match reqField o "enable" t.boolean,
            optField o "kmsKey" t.nonEmptyString,
            optField o "excludeRegions" (t.array t.region) with
      | some enable, some kk, some excl =>
        some { enable := enable, kmsKey := kk, excludeRegions := excl }
      | _, _, _ => none

/-- Decoder of `SecurityConfigTypes.documentConfig`. -/
def documentConfig (v : Yaml) : Option DocumentConfig :=
  match v.asObj with
    | none => none
    | some o =>
      match reqField o "name" t.nonEmptyString,
            reqField o "template" t.nonEmptyString with
      | some name, some tmpl => some { name := name, template := tmpl }
      | _, _ => none

/-- Decoder of `SecurityConfigTypes.documentSetConfig`. -/
def documentSetConfig (v : Yaml) : Option DocumentSetConfig :=
  match v.asObj with
    | none => none
    | some o =>
      match reqField o "shareTargets" t.shareTargets,
            reqField o "documents" (t.array documentConfig) with
      | some st, some docs => some { shareTargets := st, documents := docs }
      | _, _ => none

/-- Decoder of `SecurityConfigTypes.ssmAutomationConfig`. -/
def ssmAutomationConfig (v : Yaml) : Option SsmAutomationConfig :=
  match v.asObj with
    | none => none
    | some o =>
      match optField o "excludeRegions" (t.array t.region),
            reqField o "documentSets" (t.array documentSetConfig) with
      | some excl, some ds => some { excludeRegions := excl, documentSets := ds }
      | _, _ => none

/-- Decoder of `SecurityConfigTypes.centralSecurityServicesConfig`.  The
schema has no `snsSubscriptions` member, so the decoded value never carries
one. -/
def centralSecurityServicesConfig (v : Yaml) : Option CentralSecurityServicesConfig :=
  match v.asObj with
    | none => none
    | some o =>
      match reqField o "delegatedAdminAccount" t.nonEmptyString,
            reqField o "ebsDefaultVolumeEncryption" ebsDefaultVolumeEncryptionConfig,
            reqField o "s3PublicAccessBlock" s3PublicAccessBlockConfig,
            optField o "scpRevertChangesConfig" scpRevertChangesConfig,
            reqField o "macie" macieConfig,
            reqField o "guardduty" guardDutyConfig,
            optField o "auditManager" auditManagerConfig,
            optField o "detective" detectiveConfig,
            reqField o "securityHub" securityHubConfig,
            reqField o "ssmAutomation" ssmAutomationConfig with
      | some daa, some ebs, some s3b, some scp, some mac, some gd, some am,
        some det, some sh, some ssm =>
        some { delegatedAdminAccount := daa, ebsDefaultVolumeEncryption := ebs,
               s3PublicAccessBlock := s3b, scpRevertChangesConfig := scp,
               snsSubscriptions := none, macie := mac, guardduty := gd,
               auditManager := am, detective := det, securityHub := sh,
               ssmAutomation := ssm }
      | _, _, _, _, _, _, _, _, _, _ => none

/-- Decoder of `SecurityConfigTypes.keyManagementServiceConfig`. -/
def keyManagementServiceConfig (v : Yaml) : Option KeyManagementServiceConfig :=
  match v.asObj with
    | none => none
    | some o =>
      match reqField o "keySets" (t.array keyConfig) with
      | some ks => some { keySets := ks }
      | none => none

/-- Decoder of `SecurityConfigTypes.accessAnalyzerConfig`. -/
def accessAnalyzerConfig (v : Yaml) : Option AccessAnalyzerConfig :=
  match v.asObj with
    | none => none
    | some o =>
      match reqField o "enable" t.boolean with
      | some enable => some { enable := enable }
      | none => none

/-- Decoder of `SecurityConfigTypes.iamPasswordPolicyConfig`. -/
def iamPasswordPolicyConfig (v : Yaml) : Option IamPasswordPolicyConfig :=
  match v.asObj with
    | none => none
    | some o =>
      match reqField o "allowUsersToChangePassword" t.boolean,
            reqField o "hardExpiry" t.boolean,
            reqField o "requireUppercaseCharacters" t.boolean,
            reqField o "requireLowercaseCharacters" t.boolean,
            reqField o "requireSymbols" t.boolean,
            reqField o "requireNumbers" t.boolean,
            reqField o "minimumPasswordLength" t.number,
            reqField o "passwordReusePrevention" t.number,
            reqField o "maxPasswordAge" t.number with
      | some a, some h, some uc, some lc, some sy, some nu, some mpl, some prp,
        some mpa =>
        some { allowUsersToChangePassword := a, hardExpiry := h,
               requireUppercaseCharacters := uc, requireLowercaseCharacters := lc,
               requireSymbols := sy, requireNumbers := nu,
               minimumPasswordLength := mpl, passwordReusePrevention := prp,
               maxPasswordAge := mpa }
      | _, _, _, _, _, _, _, _, _ => none

/-- Decoder of `SecurityConfigTypes.customRuleLambdaType`. -/
def customRuleLambdaType (v : Yaml) : Option CustomRuleLambdaType :=
  match v.asObj with
    | none => none
    | some o =>
      match reqField o "sourceFilePath" t.nonEmptyString,
            reqField o "handler" t.nonEmptyString,
            reqField o "runtime" t.nonEmptyString,
            reqField o "rolePolicyFile" t.nonEmptyString,
            optField o "timeout" t.number with
      | some sfp, some h, some rt, some rpf, some to' =>
        some { sourceFilePath := sfp, handler := h, runtime := rt,
               rolePolicyFile := rpf, timeout := to' }
      | _, _, _, _, _ => none

/-- Decoder of `SecurityConfigTypes.triggeringResourceType`. -/
def triggeringResourceType (v : Yaml) : Option TriggeringResourceType :=
  match v.asObj with
    | none => none
    | some o =>
      match reqField o "lookupType" (t.enums ["ResourceId", "Tag", "ResourceTypes"]),
            reqField o "lookupKey" t.nonEmptyString,
            reqField o "lookupValue" (t.array t.nonEmptyString) with
      | some lt, some lk, some lv =>
        some { lookupType := lt, lookupKey := lk, lookupValue := lv }
      | _, _, _ => none

/-- Decoder of `SecurityConfigTypes.customRuleConfigType`. -/
def customRuleConfigType (v : Yaml) : Option CustomRuleConfigType :=
  match v.asObj with
    | none => none
    | some o =>
      match reqField o "lambda" customRuleLambdaType,
            optField o "periodic" t.boolean,
            reqField o "maximumExecutionFrequency"
              (t.enums ["One_Hour", "Three_Hours", "Six_Hours", "Twelve_Hours",
                        "TwentyFour_Hours"]),
            optField o "configurationChanges" t.boolean,
            reqField o "triggeringResources" triggeringResourceType with
      | some lam, some per, some mef, some cc, some tr =>
        some { lambda := lam, periodic := per, maximumExecutionFrequency := mef,
               configurationChanges := cc, triggeringResources := tr }
      | _, _, _, _, _ => none

/-- Decoder of `SecurityConfigTypes.remediationParametersConfigType`. -/
def remediationParametersConfigType (v : Yaml) : Option RemediationParametersConfigType :=
  match v.asObj with
    | none => none
    | some o =>
      match reqField o "name" t.nonEmptyString,
            reqField o "value" t.nonEmptyString,
            reqField o "type" (t.enums ["String", "StringList"]) with
      | some name, some val, some ty =>
        some { name := name, value := val, type := ty }
      | _, _, _ => none

/-- Decoder of `SecurityConfigTypes.configRuleRemediationType`. -/
def configRuleRemediationType (v : Yaml) : Option ConfigRuleRemediationType :=
  match v.asObj with
    | none => none
    | some o =>
      match reqField o "rolePolicyFile" t.nonEmptyString,
            reqField o "automatic" t.boolean,
            reqField o "targetId" t.nonEmptyString,
            optField o "targetAccountName" t.nonEmptyString,
            optField o "targetVersion" t.nonEmptyString,
            optField o "targetDocumentLambda" customRuleLambdaType,
            optField o "retryAttemptSeconds" t.number,
            optField o "maximumAutomaticAttempts" t.number,
            optField o "parameters" (t.array remediationParametersConfigType) with
      | some rpf, some au, some ti, some tan, some tv, some tdl, some ras,
        some maa, some ps =>
        some { rolePolicyFile := rpf, automatic := au, targetId := ti,
               targetAccountName := tan, targetVersion := tv,
               targetDocumentLambda := tdl, retryAttemptSeconds := ras,
               maximumAutomaticAttempts := maa, parameters := ps }
      | _, _, _, _, _, _, _, _, _ => none

/-- Decoder of `SecurityConfigTypes.configRule`. -/
def configRule (v : Yaml) : Option ConfigRule :=
  match v.asObj with
    | none => none
    | some o =>
      match reqField o "name" t.nonEmptyString,
            optField o "description" t.nonEmptyString,
            optField o "identifier" t.nonEmptyString,
            optField o "inputParameters" (t.dictionary t.nonEmptyString),
            optField o "complianceResourceTypes" (t.array t.nonEmptyString),
            optField o "type" t.nonEmptyString,
            optField o "customRule" customRuleConfigType,
            optField o "remediation" configRuleRemediationType,
            optField o "tags" (t.array t.tag) with
      | some name, some desc, some ident, some ip, some crt, some ty, some cr,
        some rem, some tags =>
        some { name := name, description := desc, identifier := ident,
               inputParameters := ip, complianceResourceTypes := crt, type := ty,
               customRule := cr, remediation := rem, tags := tags }
      | _, _, _, _, _, _, _, _, _ => none

/-- Decoder of `SecurityConfigTypes.awsConfigRuleSet`. -/
def awsConfigRuleSet (v : Yaml) : Option AwsConfigRuleSet :=
  match v.asObj with
    | none => none
    | some o =>
      match reqField o "deploymentTargets" t.deploymentTargets,
            reqField o "rules" (t.array configRule) with
      | some dt, some rs => some { deploymentTargets := dt, rules := rs }
      | _, _ => none

/-- Decoder of `SecurityConfigTypes.awsConfigAggregation`. -/
def awsConfigAggregation (v : Yaml) : Option AwsConfigAggregation :=
  match v.asObj with
    | none => none
    | some o =>
      match reqField o "enable" t.boolean,
            optField o "delegatedAdminAccount" t.nonEmptyString with
      | some enable, some daa => some { enable := enable, delegatedAdminAccount := daa }
      | _, _ => none

/-- Decoder of `SecurityConfigTypes.awsConfig`. -/
def awsConfig (v : Yaml) : Option AwsConfig :=
  match v.asObj with
    | none => none
    | some o =>
      match reqField o "enableConfigurationRecorder" t.boolean,
            optField o "enableDeliveryChannel" t.boolean,
            optField o "overrideExisting" t.boolean,
            optField o "aggregation" awsConfigAggregation,
            reqField o "ruleSets" (t.array awsConfigRuleSet) with
      | some ecr, some edc, some ov, some agg, some rs =>
        some { enableConfigurationRecorder := ecr, enableDeliveryChannel := edc,
               overrideExisting := ov, aggregation := agg, ruleSets := rs }
      | _, _, _, _, _ => none

/-- Decoder of `SecurityConfigTypes.metricConfig`. -/
def metricConfig (v : Yaml) : Option MetricConfig :=
  match v.asObj with
    | none => none
    | some o =>
      match reqField o "filterName" t.nonEmptyString,
            reqField o "logGroupName" t.nonEmptyString,
            reqField o "filterPattern" t.nonEmptyString,
            reqField o "metricNamespace" t.nonEmptyString,
            reqField o "metricName" t.nonEmptyString,
            reqField o "metricValue" t.nonEmptyString with
      | some fn, some lgn, some fp, some mns, some mn, some mv =>
        some { filterName := fn, logGroupName := lgn, filterPattern := fp,
               metricNamespace := mns, metricName := mn, metricValue := mv }
      | _, _, _, _, _, _ => none

/-- Decoder of `SecurityConfigTypes.metricSetConfig`. -/
def metricSetConfig (v : Yaml) : Option MetricSetConfig :=
  match v.asObj with
    | none => none
    | some o =>
      match optField o "regions" (t.array t.nonEmptyString),
            reqField o "deploymentTargets" t.deploymentTargets,
            reqField o "metrics" (t.array metricConfig) with
      | some rgs, some dt, some ms =>
        some { regions := rgs, deploymentTargets := dt, metrics := ms }
      | _, _, _ => none

/-- Decoder of `SecurityConfigTypes.alarmConfig`. -/
def alarmConfig (v : Yaml) : Option AlarmConfig :=
  match v.asObj with
    | none => none
    | some o =>
      match reqField o "alarmName" t.nonEmptyString,
            reqField o "alarmDescription" t.nonEmptyString,
            optField o "snsAlertLevel" t.nonEmptyString,
            optField o "snsTopicName" t.nonEmptyString,
            reqField o "metricName" t.nonEmptyString,
            reqField o "namespace" t.nonEmptyString,
            reqField o "comparisonOperator" t.nonEmptyString,
            reqField o "evaluationPeriods" t.number,
            reqField o "period" t.number,
            reqField o "statistic" t.nonEmptyString,
            reqField o "threshold" t.number,
            reqField o "treatMissingData" t.nonEmptyString with
      | some an, some ad, some sal, some stn, some mn, some ns, some co,
        some ep, some pd, some st, some th, some tmd =>
        some { alarmName := an, alarmDescription := ad, snsAlertLevel := sal,
               snsTopicName := stn, metricName := mn, nameSpace := ns,
               comparisonOperator := co, evaluationPeriods := ep, period := pd,
               statistic := st, threshold := th, treatMissingData := tmd }
      | _, _, _, _, _, _, _, _, _, _, _, _ => none

/-- Decoder of `SecurityConfigTypes.alarmSetConfig`. -/
def alarmSetConfig (v : Yaml) : Option AlarmSetConfig :=
  match v.asObj with
    | none => none
    | some o =>
      match optField o "regions" (t.array t.nonEmptyString),
            reqField o "deploymentTargets" t.deploymentTargets,
            reqField o "alarms" (t.array alarmConfig) with
      | some rgs, some dt, some als =>
        some { regions := rgs, deploymentTargets := dt, alarms := als }
      | _, _, _ => none

/-- Decoder of `SecurityConfigTypes.encryptionConfig`. -/
def encryptionConfig (v : Yaml) : Option EncryptionConfig :=
  match v.asObj with
    | none => none
    | some o =>
      match optField o "kmsKeyName" t.nonEmptyString,
            optField o "kmsKeyArn" t.nonEmptyString,
            optField o "useLzaManagedKey" t.boolean with
      | some kkn, some kka, some ulk =>
        some { kmsKeyName := kkn, kmsKeyArn := kka, useLzaManagedKey := ulk }
      | _, _, _ => none

/-- Decoder of `SecurityConfigTypes.logGroupsConfig`. -/
def logGroupsConfig (v : Yaml) : Option LogGroupsConfig :=
  match v.asObj with
    | none => none
    | some o =>
      match reqField o "logGroupName" t.nonEmptyString,
            reqField o "logRetentionInDays" t.number,
            optField o "terminationProtected" t.boolean,
            optField o "encryption" encryptionConfig,
            reqField o "deploymentTargets" t.deploymentTargets with
      | some lgn, some lrd, some tp, some enc, some dt =>
        some { logGroupName := lgn, logRetentionInDays := lrd,
               terminationProtected := tp, encryption := enc,
               deploymentTargets := dt }
      | _, _, _, _, _ => none

/-- Decoder of `SecurityConfigTypes.cloudWatchConfig`. -/
def cloudWatchConfig (v : Yaml) : Option CloudWatchConfig :=
  match v.asObj with
    | none => none
    | some o =>
      match reqField o "metricSets" (t.array metricSetConfig),
            reqField o "alarmSets" (t.array alarmSetConfig),
            optField o "logGroups" (t.array logGroupsConfig) with
      | some ms, some as, some lg =>
        some { metricSets := ms, alarmSets := as, logGroups := lg }
      | _, _, _ => none

/-- Decoder of `SecurityConfigTypes.securityConfig`, the top-level schema:
five required sections and an optional `keyManagementService`. -/
def securityConfig (v : Yaml) : Option SecurityConfigValues :=
  match v.asObj with
    | none => none
    | some o =>
      match reqField o "centralSecurityServices" centralSecurityServicesConfig,
            reqField o "accessAnalyzer" accessAnalyzerConfig,
            reqField o "iamPasswordPolicy" iamPasswordPolicyConfig,
            reqField o "awsConfig" awsConfig,
            reqField o "cloudWatch" cloudWatchConfig,
            optField o "keyManagementService" keyManagementServiceConfig with
      | some css, some aa, some ipp, some ac, some cw, some kms =>
        some { centralSecurityServices := some css, accessAnalyzer := some aa,
               iamPasswordPolicy := some ipp, awsConfig := some ac,
               cloudWatch := some cw, keyManagementService := kms }
      | _, _, _, _, _, _ => none

end SecurityConfigTypes

/-- Default field values of `class S3PublicAccessBlockConfig`
(`security-config.ts`): `enable = false`, `excludeAccounts = []`. -/
def S3PublicAccessBlockConfig.default : S3PublicAccessBlockConfig :=
  { enable := false, excludeAccounts := some [] }

/-- Default field values of `class ScpRevertChangesConfig`: `enable = false`,
`snsTopicName = undefined`. -/
def ScpRevertChangesConfig.default : ScpRevertChangesConfig :=
  { enable := false, snsTopicName := none }

/-- Default field values of `class MacieConfig`: `enable = false`,
`excludeRegions = []`,
`policyFindingsPublishingFrequency = 'FIFTEEN_MINUTES'`,
`publishSensitiveDataFindings = true`, `lifecycleRules = undefined`. -/
def MacieConfig.default : MacieConfig :=
  { enable := false, excludeRegions := some [],
    policyFindingsPublishingFrequency := "FIFTEEN_MINUTES",
    publishSensitiveDataFindings := true, lifecycleRules := none }

/-- Default field values of `class GuardDutyS3ProtectionConfig`. -/
def GuardDutyS3ProtectionConfig.default : GuardDutyS3ProtectionConfig :=
  { enable := false, excludeRegions := some [] }

/-- Default field values of `class GuardDutyExportFindingsConfig`. -/
def GuardDutyExportFindingsConfig.default : GuardDutyExportFindingsConfig :=
  { enable := false, overrideExisting := some false, destinationType := "S3",
    exportFrequency := "FIFTEEN_MINUTES" }

/-- Default field values of `class GuardDutyConfig`: `enable = false`,
`excludeRegions = []`, default S3 protection, `eksProtection = undefined`,
default export configuration, `lifecycleRules = undefined`. -/
def GuardDutyConfig.default : GuardDutyConfig :=
  { enable := false, excludeRegions := some [],
    s3Protection := GuardDutyS3ProtectionConfig.default, eksProtection := none,
    exportConfiguration := GuardDutyExportFindingsConfig.default,
    lifecycleRules := none }

/-- Default field values of `class SecurityHubConfig`: `enable = false`,
`regionAggregation = false`, `snsTopicName = undefined`,
`notificationLevel = undefined`, `excludeRegions = []`, `standards = []`. -/
def SecurityHubConfig.default : SecurityHubConfig :=
  { enable := false, regionAggregation := some false, snsTopicName := none,
    notificationLevel := none, excludeRegions := some [], standards := [] }

/-- Default field values of `class EbsDefaultVolumeEncryptionConfig`. -/
def EbsDefaultVolumeEncryptionConfig.default : EbsDefaultVolumeEncryptionConfig :=
  { enable := false, kmsKey := none, excludeRegions := some [] }

/-- Default field values of `class SsmAutomationConfig`. -/
def SsmAutomationConfig.default : SsmAutomationConfig :=
  { excludeRegions := some [], documentSets := [] }

/-- Default field values of `class CentralSecurityServicesConfig`:
`delegatedAdminAccount = 'Audit'`, service defaults, `snsSubscriptions = []`,
`auditManager = undefined`, `detective = undefined`. -/
def CentralSecurityServicesConfig.default : CentralSecurityServicesConfig :=
  { delegatedAdminAccount := "Audit",
    ebsDefaultVolumeEncryption := EbsDefaultVolumeEncryptionConfig.default,
    s3PublicAccessBlock := S3PublicAccessBlockConfig.default,
    scpRevertChangesConfig := some ScpRevertChangesConfig.default,
    snsSubscriptions := some [], macie := MacieConfig.default,
    guardduty := GuardDutyConfig.default, auditManager := none,
    detective := none, securityHub := SecurityHubConfig.default,
    ssmAutomation := SsmAutomationConfig.default }

/-- Default field values of `class AccessAnalyzerConfig`: `enable = false`. -/
def AccessAnalyzerConfig.default : AccessAnalyzerConfig :=
  { enable := false }

/-- Default field values of `class IamPasswordPolicyConfig`:
`allowUsersToChangePassword = true`, `hardExpiry = false`, the four
`require*` flags `true`, `minimumPasswordLength = 14`,
`passwordReusePrevention = 24`, `maxPasswordAge = 90`. -/
def IamPasswordPolicyConfig.default : IamPasswordPolicyConfig :=
  { allowUsersToChangePassword := true, hardExpiry := false,
    requireUppercaseCharacters := true, requireLowercaseCharacters := true,
    requireSymbols := true, requireNumbers := true,
    minimumPasswordLength := 14, passwordReusePrevention := 24,
    maxPasswordAge := 90 }

/-- Default field values of `class AwsConfig`:
`enableConfigurationRecorder = true`, the optional flags `undefined`,
`ruleSets = []`. -/
def AwsConfig.default : AwsConfig :=
  { enableConfigurationRecorder := true, enableDeliveryChannel := none,
    overrideExisting := none, aggregation := none, ruleSets := [] }

/-- Default field values of `class CloudWatchConfig`: `metricSets = []`,
`alarmSets = []`, `logGroups = undefined`. -/
def CloudWatchConfig.default : CloudWatchConfig :=
  { metricSets := [], alarmSets := [], logGroups := none }

/-- Default field values of `class KeyManagementServiceConfig`:
`keySets = []`. -/
def KeyManagementServiceConfig.default : KeyManagementServiceConfig :=
  { keySets := [] }

/-- The `SecurityConfig` class of `security-config.ts`: six sections, each
initialized to its class default by the field initializers. -/
structure SecurityConfig where
  centralSecurityServices : CentralSecurityServicesConfig
  accessAnalyzer : AccessAnalyzerConfig
  iamPasswordPolicy : IamPasswordPolicyConfig
  awsConfig : AwsConfig
  cloudWatch : CloudWatchConfig
  keyManagementService : KeyManagementServiceConfig

/-- The object state of `new SecurityConfig()` before `Object.assign`: every
field holds its class default. -/
def SecurityConfig.default : SecurityConfig :=
  { centralSecurityServices := CentralSecurityServicesConfig.default,
    accessAnalyzer := AccessAnalyzerConfig.default,
    iamPasswordPolicy := IamPasswordPolicyConfig.default,
    awsConfig := AwsConfig.default,
    cloudWatch := CloudWatchConfig.default,
    keyManagementService := KeyManagementServiceConfig.default }

/-- The `SecurityConfig` constructor:
`constructor(values?) { if (values) { Object.assign(this, values); } }`.
`Object.assign` copies exactly the top-level properties present on `values`
over the field-initializer defaults; absent properties leave the defaults
untouched, and nothing is merged recursively. -/
def SecurityConfig.ofValues : Option SecurityConfigValues → SecurityConfig
  | none => SecurityConfig.default
  | some values =>
    { centralSecurityServices :=
        values.centralSecurityServices.getD SecurityConfig.default.centralSecurityServices,
      accessAnalyzer := values.accessAnalyzer.getD SecurityConfig.default.accessAnalyzer,
      iamPasswordPolicy :=
        values.iamPasswordPolicy.getD SecurityConfig.default.iamPasswordPolicy,
      awsConfig := values.awsConfig.getD SecurityConfig.default.awsConfig,
      cloudWatch := values.cloudWatch.getD SecurityConfig.default.cloudWatch,
      keyManagementService :=
        values.keyManagementService.getD SecurityConfig.default.keyManagementService }

/-- The method `SecurityConfig.getDelegatedAccountName`:
`return this.centralSecurityServices.delegatedAdminAccount;`.  The method
reads one field and mutates nothing, so it is embedded as a pure function of
the object. -/
def SecurityConfig.getDelegatedAccountName (cfg : SecurityConfig) : String :=
  cfg.centralSecurityServices.delegatedAdminAccount

/-- The constant `SecurityConfig.FILENAME` of `security-config.ts`. -/
def SecurityConfig.FILENAME : String :=
  "security-config.yaml"

/-- Abstraction of `yaml.load` of the external `js-yaml` library: a function
from the raw file content to either a parsed document or a thrown
`YAMLException` message. -/
def YamlLoader : Type :=
  String → Except String Yaml

/-- Abstraction of the file system seen by `fs.readFileSync`: path/content
pairs. -/
def FileSystem : Type :=
  List (String × String)

/-- Abstraction of `fs.readFileSync(p, 'utf8')` of the external Node `fs`
module: returns the content at the path or throws an ENOENT error. -/
def readFileSync (fs : FileSystem) (p : String) : Except String String :=
  match fs.find? (fun entry => entry.1 == p) with
  | some entry => Except.ok entry.2
  | none => Except.error ("ENOENT: no such file or directory, open " ++ p)

/-- Abstraction of `path.join(dir, name)` of the external Node `path`
module for the one call site in `SecurityConfig.load`. -/
def pathJoin (dir name : String) : String :=
  dir ++ "/" ++ name

/-- The composed parsing step
`t.parse(SecurityConfigTypes.securityConfig, yaml.load(content))`: the YAML
load followed by schema validation; an exception from either step
propagates. -/
def parseResult (yl : YamlLoader) (content : String) :
    Except String SecurityConfigValues :=
  match yl content with
  | Except.error e => Except.error e
  | Except.ok v => t.parse SecurityConfigTypes.securityConfig v

/-- The static method `SecurityConfig.load(dir)`: read
`path.join(dir, SecurityConfig.FILENAME)`, parse it, and construct the
`SecurityConfig`.  The method has no try/catch and no logging, so any
exception propagates unchanged; the second component is the list of lines
logged through `logger.error`, always empty here. -/
def SecurityConfig.load (yl : YamlLoader) (fs : FileSystem) (dir : String) :
    Except String SecurityConfig × List String :=
  match readFileSync fs (pathJoin dir SecurityConfig.FILENAME) with
  | Except.error e => (Except.error e, [])
  | Except.ok buffer =>
    match parseResult yl buffer with
    | Except.error e => (Except.error e, [])
    | Except.ok values => (Except.ok (SecurityConfig.ofValues (some values)), [])

/-- The static method `SecurityConfig.loadFromString(content)`, declared to
return `SecurityConfig | undefined` (hence the `Option` in the success
type): parse the content and construct the `SecurityConfig`; on any
exception, log `'Error parsing input, global config undefined'` and the
stringified exception through `logger.error`, then throw
`new Error('could not load configuration')`.  The second component is the
list of lines logged through `logger.error`. -/
def SecurityConfig.loadFromString (yl : YamlLoader) (content : String) :
    Except String (Option SecurityConfig) × List String :=
  match parseResult yl content with
  | Except.ok values =>
    (Except.ok (some (SecurityConfig.ofValues (some values))), [])
  | Except.error e =>
    (Except.error "could not load configuration",
     ["Error parsing input, global config undefined", e])

/-- A concrete `centralSecurityServices` section carrying every required
field of the schema. -/
def exampleCentralDoc : Yaml :=
  Yaml.obj
    [("delegatedAdminAccount", Yaml.str "SecurityAudit"),
     ("ebsDefaultVolumeEncryption", Yaml.obj [("enable", Yaml.bool false)]),
     ("s3PublicAccessBlock", Yaml.obj [("enable", Yaml.bool true)]),
     ("macie", Yaml.obj
        [("enable", Yaml.bool true),
         ("policyFindingsPublishingFrequency", Yaml.str "ONE_HOUR"),
         ("publishSensitiveDataFindings", Yaml.bool false)]),
     ("guardduty", Yaml.obj
        [("enable", Yaml.bool true),
         ("s3Protection", Yaml.obj [("enable", Yaml.bool true)]),
         ("exportConfiguration", Yaml.obj
            [("enable", Yaml.bool true),
             ("destinationType", Yaml.str "S3"),
             ("exportFrequency", Yaml.str "SIX_HOURS")])]),
     ("securityHub", Yaml.obj
        [("enable", Yaml.bool true),
         ("standards", Yaml.arr
            [Yaml.obj
               [("name", Yaml.str "PCI DSS v3.2.1"),
                ("enable", Yaml.bool true)]])]),
     ("ssmAutomation", Yaml.obj [("documentSets", Yaml.arr [])])]

/-- A concrete document satisfying the whole `securityConfig` schema. -/
def exampleDoc : Yaml :=
  Yaml.obj
    [("centralSecurityServices", exampleCentralDoc),
     ("accessAnalyzer", Yaml.obj [("enable", Yaml.bool true)]),
     ("iamPasswordPolicy", Yaml.obj
        [("allowUsersToChangePassword", Yaml.bool true),
         ("hardExpiry", Yaml.bool false),
         ("requireUppercaseCharacters", Yaml.bool true),
         ("requireLowercaseCharacters", Yaml.bool true),
         ("requireSymbols", Yaml.bool true),
         ("requireNumbers", Yaml.bool true),
         ("minimumPasswordLength", Yaml.num 8),
         ("passwordReusePrevention", Yaml.num 5),
         ("maxPasswordAge", Yaml.num 60)]),
     ("awsConfig", Yaml.obj
        [("enableConfigurationRecorder", Yaml.bool false),
         ("ruleSets", Yaml.arr [])]),
     ("cloudWatch", Yaml.obj
        [("metricSets", Yaml.arr []), ("alarmSets", Yaml.arr [])])]

/-- The value the schema decoder produces on `exampleDoc`. -/
def exampleValues : SecurityConfigValues :=
  { centralSecurityServices := some
      { delegatedAdminAccount := "SecurityAudit",
        ebsDefaultVolumeEncryption :=
          { enable := false, kmsKey := none, excludeRegions := none },
        s3PublicAccessBlock := { enable := true, excludeAccounts := none },
        scpRevertChangesConfig := none,
        snsSubscriptions := none,
        macie :=
          { enable := true, excludeRegions := none,
            policyFindingsPublishingFrequency := "ONE_HOUR",
            publishSensitiveDataFindings := false, lifecycleRules := none },
        guardduty :=
          { enable := true, excludeRegions := none,
            s3Protection := { enable := true, excludeRegions := none },
            eksProtection := none,
            exportConfiguration :=
              { enable := true, overrideExisting := none,
                destinationType := "S3", exportFrequency := "SIX_HOURS" },
            lifecycleRules := none },
        auditManager := none,
        detective := none,
        securityHub :=
          { enable := true, regionAggregation := none, snsTopicName := none,
            notificationLevel := none, excludeRegions := none,
            standards :=
              [{ name := "PCI DSS v3.2.1", deploymentTargets := none,
                 enable := true, controlsToDisable := none }] },
        ssmAutomation := { excludeRegions := none, documentSets := [] } },
    accessAnalyzer := some { enable := true },
    iamPasswordPolicy := some
      { allowUsersToChangePassword := true, hardExpiry := false,
        requireUppercaseCharacters := true, requireLowercaseCharacters := true,
        requireSymbols := true, requireNumbers := true,
        minimumPasswordLength := 8, passwordReusePrevention := 5,
        maxPasswordAge := 60 },
    awsConfig := some
      { enableConfigurationRecorder := false, enableDeliveryChannel := none,
        overrideExisting := none, aggregation := none, ruleSets := [] },
    cloudWatch := some { metricSets := [], alarmSets := [], logGroups := none },
    keyManagementService := none }

/-- The schema decoder accepts `exampleDoc` and produces `exampleValues`. -/
theorem exampleDoc_decodes :
    SecurityConfigTypes.securityConfig exampleDoc = some exampleValues :=
  rfl

/-- A concrete YAML loader: one well-formed document, one document that is
well-formed YAML but violates the schema, and a scan error everywhere else. -/
def exampleLoader : YamlLoader :=
  fun s =>
    if s = "valid" then Except.ok exampleDoc
    else if s = "invalid" then Except.ok (Yaml.str "not a mapping")
    else Except.error "unexpected end of the stream"

/-- A concrete file system whose security configuration file fails to scan. -/
def exampleFs : FileSystem :=
  [("config/security-config.yaml", "garbage")]

/-- A concrete file system whose security configuration file is valid. -/
def exampleGoodFs : FileSystem :=
  [("config/security-config.yaml", "valid")]

/-- The good file system extended with an unrelated file. -/
def exampleBiggerFs : FileSystem :=
  [("config/security-config.yaml", "valid"), ("config/other.yaml", "garbage")]

/-- A successfully decoded required field was decoded from some document. -/
theorem reqField_some {α : Type} {o : List (String × Yaml)} {k : String}
    {d : Yaml → Option α} {a : α} (h : reqField o k d = some a) :
    ∃ w, d w = some a := by
  unfold reqField at h
  split at h
  · exact ⟨_, h⟩
  · exact absurd h (by simp)

/-- A value accepted by `t.enums` is a member of the declared list. -/
theorem enums_mem {allowed : List String} {v : Yaml} {s : String}
    (h : t.enums allowed v = some s) : s ∈ allowed := by
  unfold t.enums at h
  split at h
  · split at h
    · cases h; assumption
    · exact absurd h (by simp)
  · exact absurd h (by simp)

/-- Every element of a successfully decoded sequence was decoded from some
element document. -/
theorem seqElems_mem {α : Type} {d : Yaml → Option α} :
    ∀ {xs : List Yaml} {as : List α}, t.seqElems d xs = some as →
      ∀ a ∈ as, ∃ w, d w = some a := by
  intro xs
  induction xs with
  | nil =>
    intro as h a ha
    unfold t.seqElems at h
    cases h
    simp at ha
  | cons x xs ih =>
    intro as h a ha
    unfold t.seqElems at h
    split at h
    · cases h
      rename_i b bs hb hbs
      rcases List.mem_cons.mp ha with rfl | hmem
      · exact ⟨x, hb⟩
      · exact ih hbs a hmem
    · exact absurd h (by simp)

/-- Every element of a successfully decoded `t.array` was decoded from some
element document. -/
theorem array_mem {α : Type} {d : Yaml → Option α} {v : Yaml} {as : List α}
    (h : t.array d v = some as) : ∀ a ∈ as, ∃ w, d w = some a := by
  unfold t.array at h
  split at h
  · exact seqElems_mem h
  · exact absurd h (by simp)

/-- A decoded Macie section has its publishing frequency in the declared
enum. -/
theorem macieConfig_freq_mem {v : Yaml} {m : MacieConfig}
    (h : SecurityConfigTypes.macieConfig v = some m) :
    m.policyFindingsPublishingFrequency ∈
      ["FIFTEEN_MINUTES", "ONE_HOUR", "SIX_HOURS"] := by
  unfold SecurityConfigTypes.macieConfig at h
  split at h
  · exact absurd h (by simp)
  · split at h
    · cases h
      rename_i he hx hf hp hl
      obtain ⟨w, hw⟩ := reqField_some hf
      exact enums_mem hw
    · exact absurd h (by simp)

/-- A decoded SecurityHub standard has its name among the five declared
standard names. -/
theorem securityHubStandardConfig_name_mem {v : Yaml}
    {s : SecurityHubStandardConfig}
    (h : SecurityConfigTypes.securityHubStandardConfig v = some s) :
    s.name ∈ SecurityConfigTypes.securityHubStandardNames := by
  unfold SecurityConfigTypes.securityHubStandardConfig at h
  split at h
  · exact absurd h (by simp)
  · split at h
    · cases h
      rename_i hn hdt he hc
      obtain ⟨w, hw⟩ := reqField_some hn
      exact enums_mem hw
    · exact absurd h (by simp)

/-- Every standard of a decoded SecurityHub section has its name among the
five declared standard names. -/
theorem securityHubConfig_standards_mem {v : Yaml} {sh : SecurityHubConfig}
    (h : SecurityConfigTypes.securityHubConfig v = some sh) :
    ∀ std ∈ sh.standards,
      std.name ∈ SecurityConfigTypes.securityHubStandardNames := by
  unfold SecurityConfigTypes.securityHubConfig at h
  split at h
  · exact absurd h (by simp)
  · split at h
    · cases h
      rename_i he hra ht hl hx hstd
      intro std hmem
      obtain ⟨w, hw⟩ := reqField_some hstd
      obtain ⟨w2, hw2⟩ := array_mem hw std hmem
      exact securityHubStandardConfig_name_mem hw2
    · exact absurd h (by simp)

/-- A decoded central-security-services section has its Macie frequency and
all SecurityHub standard names inside the declared enums. -/
theorem centralSecurityServicesConfig_enums_mem {v : Yaml}
    {css : CentralSecurityServicesConfig}
    (h : SecurityConfigTypes.centralSecurityServicesConfig v = some css) :
    css.macie.policyFindingsPublishingFrequency ∈
      ["FIFTEEN_MINUTES", "ONE_HOUR", "SIX_HOURS"] ∧
    ∀ std ∈ css.securityHub.standards,
      std.name ∈ SecurityConfigTypes.securityHubStandardNames := by
  unfold SecurityConfigTypes.centralSecurityServicesConfig at h
  split at h
  · exact absurd h (by simp)
  · split at h
    · cases h
      rename_i h1 h2 h3 h4 h5 h6 h7 h8 h9 h10
      obtain ⟨wm, hwm⟩ := reqField_some h5
      obtain ⟨ws, hws⟩ := reqField_some h9
      exact ⟨macieConfig_freq_mem hwm, securityHubConfig_standards_mem hws⟩
    · exact absurd h (by simp)

/-- A successfully decoded top-level document determines a decoded
central-security-services section. -/
theorem securityConfig_css {v : Yaml} {values : SecurityConfigValues}
    (h : SecurityConfigTypes.securityConfig v = some values) :
    ∃ w css, SecurityConfigTypes.centralSecurityServicesConfig w = some css ∧
      values.centralSecurityServices = some css := by
  unfold SecurityConfigTypes.securityConfig at h
  split at h
  · exact absurd h (by simp)
  · split at h
    · cases h
      rename_i h1 h2 h3 h4 h5 h6
      obtain ⟨w, hw⟩ := reqField_some h1
      exact ⟨w, _, hw, rfl⟩
    · exact absurd h (by simp)

/-- A successful parse step is a YAML load followed by a successful schema
decode. -/
theorem parseResult_ok {yl : YamlLoader} {content : String}
    {values : SecurityConfigValues}
    (h : parseResult yl content = Except.ok values) :
    ∃ v, yl content = Except.ok v ∧
      SecurityConfigTypes.securityConfig v = some values := by
  unfold parseResult at h
  split at h
  · exact absurd h (by simp)
  · rename_i v hv
    unfold t.parse at h
    split at h
    · cases h
      rename_i hdec
      exact ⟨v, hv, hdec⟩
    · exact absurd h (by simp)

/-- A successful `loadFromString` comes from a successful parse and returns
the constructed object. -/
theorem loadFromString_ok {yl : YamlLoader} {content : String}
    {o : Option SecurityConfig}
    (h : (SecurityConfig.loadFromString yl content).1 = Except.ok o) :
    ∃ values, parseResult yl content = Except.ok values ∧
      o = some (SecurityConfig.ofValues (some values)) := by
  unfold SecurityConfig.loadFromString at h
  split at h
  · rename_i values hv
    cases h
    exact ⟨values, hv, rfl⟩
  · exact absurd h (by simp)

/-- A successful `load` comes from a successful read and parse and returns
the constructed object. -/
theorem load_ok {yl : YamlLoader} {fs : FileSystem} {dir : String}
    {cfg : SecurityConfig}
    (h : (SecurityConfig.load yl fs dir).1 = Except.ok cfg) :
    ∃ buffer values,
      readFileSync fs (pathJoin dir SecurityConfig.FILENAME) = Except.ok buffer ∧
      parseResult yl buffer = Except.ok values ∧
      cfg = SecurityConfig.ofValues (some values) := by
  unfold SecurityConfig.load at h
  split at h
  · exact absurd h (by simp)
  · rename_i buffer hb
    split at h
    · exact absurd h (by simp)
    · rename_i values hv
      cases h
      exact ⟨buffer, values, hb, hv, rfl⟩

/-- C1: for every input string, `SecurityConfig.loadFromString` returns the
schema-validated, defaulted object graph exactly when the YAML load and the
schema validation succeed, and throws exactly when they fail: it never
returns a value for invalid input and never throws for valid input. -/
theorem loadFromString_valid_invalid_dichotomy (yl : YamlLoader)
    (content : String) :
    (∀ values, parseResult yl content = Except.ok values →
      (SecurityConfig.loadFromString yl content).1 =
        Except.ok (some (SecurityConfig.ofValues (some values)))) ∧
    (∀ e, parseResult yl content = Except.error e →
      (SecurityConfig.loadFromString yl content).1 =
        Except.error "could not load configuration") := by
  constructor
  · intro values h
    unfold SecurityConfig.loadFromString
    rw [h]
  · intro e h
    unfold SecurityConfig.loadFromString
    rw [h]

/-- Witness for C1: the concrete valid document is returned parsed and
defaulted, and a concrete scan failure throws. -/
theorem loadFromString_valid_invalid_dichotomy_witness :
    (SecurityConfig.loadFromString exampleLoader "valid").1 =
      Except.ok (some (SecurityConfig.ofValues (some exampleValues))) ∧
    (SecurityConfig.loadFromString exampleLoader "invalid").1 =
      Except.error "could not load configuration" :=
  ⟨(loadFromString_valid_invalid_dichotomy exampleLoader "valid").1
      exampleValues rfl,
   (loadFromString_valid_invalid_dichotomy exampleLoader "invalid").2
      "security configuration does not match the schema" rfl⟩

/-- C2: whenever the YAML load or the schema validation fails,
`SecurityConfig.loadFromString` logs the fixed diagnostic and the
stringified exception and throws the generic
`'could not load configuration'` error. -/
theorem loadFromString_error_contract (yl : YamlLoader) (content : String)
    (e : String) (h : parseResult yl content = Except.error e) :
    SecurityConfig.loadFromString yl content =
      (Except.error "could not load configuration",
       ["Error parsing input, global config undefined", e]) := by
  unfold SecurityConfig.loadFromString
  rw [h]

/-- Witness for C2: a concrete scan failure produces the generic error and
the two logged lines. -/
theorem loadFromString_error_contract_witness :
    SecurityConfig.loadFromString exampleLoader "garbage" =
      (Except.error "could not load configuration",
       ["Error parsing input, global config undefined",
        "unexpected end of the stream"]) :=
  loadFromString_error_contract exampleLoader "garbage"
    "unexpected end of the stream" rfl

/-- C3 counterexample: at a concrete directory and file content on which
parsing fails, `SecurityConfig.load` throws the raw underlying error, not
the generic `'could not load configuration'`, and logs nothing, refuting
the claim that `load` satisfies the same error-handling contract as
`loadFromString`. -/
theorem load_error_contract_counterexample :
    SecurityConfig.load exampleLoader exampleFs "config" =
      (Except.error "unexpected end of the stream", []) ∧
    ("unexpected end of the stream" == "could not load configuration") =
      false :=
  ⟨rfl, rfl⟩

/-- C3 amended: `SecurityConfig.load` surfaces every failure (missing file,
YAML scan error, schema validation error) as a thrown error, but it
propagates the underlying error unchanged and logs no diagnostic: it has no
try/catch and never produces the generic
`'could not load configuration'` message. -/
theorem load_propagates_raw_errors (yl : YamlLoader) (fs : FileSystem)
    (dir : String) :
    (∀ e, readFileSync fs (pathJoin dir SecurityConfig.FILENAME) =
        Except.error e →
      SecurityConfig.load yl fs dir = (Except.error e, [])) ∧
    (∀ buffer e,
      readFileSync fs (pathJoin dir SecurityConfig.FILENAME) =
        Except.ok buffer →
      parseResult yl buffer = Except.error e →
      SecurityConfig.load yl fs dir = (Except.error e, [])) := by
  constructor
  · intro e h
    unfold SecurityConfig.load
    rw [h]
  · intro buffer e hb hp
    simp only [SecurityConfig.load, hb, hp]

/-- Witness for the amended C3: a concrete scan failure propagates its raw
message with an empty log. -/
theorem load_propagates_raw_errors_witness :
    SecurityConfig.load exampleLoader exampleFs "config" =
      (Except.error "unexpected end of the stream", []) :=
  (load_propagates_raw_errors exampleLoader exampleFs "config").2
    "garbage" "unexpected end of the stream" rfl rfl

/-- C4: `SecurityConfig.load dir` consults exactly the file
`security-config.yaml` joined to the directory: `FILENAME` is that constant,
a successful read and parse of that one file yields the constructed
configuration, and two file systems agreeing on that single path give
identical results. -/
theorem load_reads_exactly_filename :
    SecurityConfig.FILENAME = "security-config.yaml" ∧
    (∀ yl fs dir buffer values,
      readFileSync fs (pathJoin dir SecurityConfig.FILENAME) =
        Except.ok buffer →
      parseResult yl buffer = Except.ok values →
      SecurityConfig.load yl fs dir =
        (Except.ok (SecurityConfig.ofValues (some values)), [])) ∧
    (∀ yl fs1 fs2 dir,
      readFileSync fs1 (pathJoin dir SecurityConfig.FILENAME) =
        readFileSync fs2 (pathJoin dir SecurityConfig.FILENAME) →
      SecurityConfig.load yl fs1 dir = SecurityConfig.load yl fs2 dir) := by
  refine ⟨rfl, ?_, ?_⟩
  · intro yl fs dir buffer values hb hp
    simp only [SecurityConfig.load, hb, hp]
  · intro yl fs1 fs2 dir h
    unfold SecurityConfig.load
    rw [h]

/-- Witness for C4: the concrete good file system loads the example
document, and enlarging the file system with an unrelated file changes
nothing. -/
theorem load_reads_exactly_filename_witness :
    SecurityConfig.load exampleLoader exampleGoodFs "config" =
      (Except.ok (SecurityConfig.ofValues (some exampleValues)), []) ∧
    SecurityConfig.load exampleLoader exampleGoodFs "config" =
      SecurityConfig.load exampleLoader exampleBiggerFs "config" :=
  ⟨load_reads_exactly_filename.2.1 exampleLoader exampleGoodFs "config"
      "valid" exampleValues rfl rfl,
   load_reads_exactly_filename.2.2 exampleLoader exampleGoodFs
      exampleBiggerFs "config" rfl⟩

/-- C5: a `SecurityConfig` constructed with no argument is the fully
defaulted object graph: `delegatedAdminAccount = 'Audit'`, the IAM password
policy numbers 14, 24 and 90, the Macie, GuardDuty, SecurityHub and
AccessAnalyzer enable flags all `false`, and
`awsConfig.enableConfigurationRecorder = true`. -/
theorem securityConfig_default_values :
    (SecurityConfig.ofValues none).centralSecurityServices.delegatedAdminAccount =
      "Audit" ∧
    (SecurityConfig.ofValues none).iamPasswordPolicy.minimumPasswordLength = 14 ∧
    (SecurityConfig.ofValues none).iamPasswordPolicy.passwordReusePrevention = 24 ∧
    (SecurityConfig.ofValues none).iamPasswordPolicy.maxPasswordAge = 90 ∧
    (SecurityConfig.ofValues none).centralSecurityServices.macie.enable = false ∧
    (SecurityConfig.ofValues none).centralSecurityServices.guardduty.enable =
      false ∧
    (SecurityConfig.ofValues none).centralSecurityServices.securityHub.enable =
      false ∧
    (SecurityConfig.ofValues none).accessAnalyzer.enable = false ∧
    (SecurityConfig.ofValues none).awsConfig.enableConfigurationRecorder = true :=
  ⟨rfl, rfl, rfl, rfl, rfl, rfl, rfl, rfl, rfl⟩

/-- C6: schema validation enforces enum membership: every successful parse
has the Macie publishing frequency among the three declared values and every
SecurityHub standard name among the five declared names, and consequently
every successful `loadFromString` and `load` does too — a document with any
other value cannot produce a success. -/
theorem schema_enforces_enum_membership :
    (∀ v values, SecurityConfigTypes.securityConfig v = some values →
      ∃ css, values.centralSecurityServices = some css ∧
        css.macie.policyFindingsPublishingFrequency ∈
          ["FIFTEEN_MINUTES", "ONE_HOUR", "SIX_HOURS"] ∧
        ∀ std ∈ css.securityHub.standards,
          std.name ∈ SecurityConfigTypes.securityHubStandardNames) ∧
    (∀ yl content cfg,
      (SecurityConfig.loadFromString yl content).1 = Except.ok (some cfg) →
      cfg.centralSecurityServices.macie.policyFindingsPublishingFrequency ∈
        ["FIFTEEN_MINUTES", "ONE_HOUR", "SIX_HOURS"] ∧
      ∀ std ∈ cfg.centralSecurityServices.securityHub.standards,
        std.name ∈ SecurityConfigTypes.securityHubStandardNames) ∧
    (∀ yl fs dir cfg,
      (SecurityConfig.load yl fs dir).1 = Except.ok cfg →
      cfg.centralSecurityServices.macie.policyFindingsPublishingFrequency ∈
        ["FIFTEEN_MINUTES", "ONE_HOUR", "SIX_HOURS"] ∧
      ∀ std ∈ cfg.centralSecurityServices.securityHub.standards,
        std.name ∈ SecurityConfigTypes.securityHubStandardNames) := by
  have hparse : ∀ v values, SecurityConfigTypes.securityConfig v = some values →
      ∃ css, values.centralSecurityServices = some css ∧
        css.macie.policyFindingsPublishingFrequency ∈
          ["FIFTEEN_MINUTES", "ONE_HOUR", "SIX_HOURS"] ∧
        ∀ std ∈ css.securityHub.standards,
          std.name ∈ SecurityConfigTypes.securityHubStandardNames := by
    intro v values h
    obtain ⟨w, css, hw, hcss⟩ := securityConfig_css h
    obtain ⟨hfreq, hstd⟩ := centralSecurityServicesConfig_enums_mem hw
    exact ⟨css, hcss, hfreq, hstd⟩
  have hvals : ∀ values : SecurityConfigValues,
      (∃ v, SecurityConfigTypes.securityConfig v = some values) →
      (SecurityConfig.ofValues (some values)).centralSecurityServices.macie.policyFindingsPublishingFrequency ∈
        ["FIFTEEN_MINUTES", "ONE_HOUR", "SIX_HOURS"] ∧
      ∀ std ∈ (SecurityConfig.ofValues (some values)).centralSecurityServices.securityHub.standards,
        std.name ∈ SecurityConfigTypes.securityHubStandardNames := by
    intro values hex
    obtain ⟨v, hv⟩ := hex
    obtain ⟨css, hcss, hfreq, hstd⟩ := hparse v values hv
    simp only [SecurityConfig.ofValues, hcss, Option.getD_some]
    exact ⟨hfreq, hstd⟩
  refine ⟨hparse, ?_, ?_⟩
  · intro yl content cfg h
    obtain ⟨values, hv, ho⟩ := loadFromString_ok h
    obtain ⟨v, hyl, hdec⟩ := parseResult_ok hv
    cases ho
    exact hvals values ⟨v, hdec⟩
  · intro yl fs dir cfg h
    obtain ⟨buffer, values, hb, hv, hcfg⟩ := load_ok h
    obtain ⟨v, hyl, hdec⟩ := parseResult_ok hv
    cases hcfg
    exact hvals values ⟨v, hdec⟩

/-- Witness for C6: the concrete loaded configuration has its Macie
frequency and its one standard name inside the declared enums. -/
theorem schema_enforces_enum_membership_witness :
    (SecurityConfig.ofValues (some exampleValues)).centralSecurityServices.macie.policyFindingsPublishingFrequency ∈
      ["FIFTEEN_MINUTES", "ONE_HOUR", "SIX_HOURS"] ∧
    ∀ std ∈ (SecurityConfig.ofValues (some exampleValues)).centralSecurityServices.securityHub.standards,
      std.name ∈ SecurityConfigTypes.securityHubStandardNames :=
  schema_enforces_enum_membership.2.1 exampleLoader "valid"
    (SecurityConfig.ofValues (some exampleValues)) rfl

/-- C7: `SecurityConfig.loadFromString` is deterministic: with the same YAML
loader, equal contents give structurally equal outcomes (result and log
alike); the outcome depends only on the input content. -/
theorem loadFromString_deterministic (yl : YamlLoader) (c1 c2 : String)
    (h : c1 = c2) :
    SecurityConfig.loadFromString yl c1 = SecurityConfig.loadFromString yl c2 := by
  rw [h]

/-- Witness for C7: two runs on the concrete valid content agree. -/
theorem loadFromString_deterministic_witness :
    SecurityConfig.loadFromString exampleLoader "valid" =
      SecurityConfig.loadFromString exampleLoader "valid" :=
  loadFromString_deterministic exampleLoader "valid" "valid" rfl

/-- C8: although declared to return `SecurityConfig | undefined`,
`loadFromString` never returns `undefined`: every non-throwing run returns a
constructed `SecurityConfig`. -/
theorem loadFromString_never_undefined (yl : YamlLoader) (content : String)
    (o : Option SecurityConfig)
    (h : (SecurityConfig.loadFromString yl content).1 = Except.ok o) :
    o.isSome = true := by
  obtain ⟨values, hv, ho⟩ := loadFromString_ok h
  cases ho
  rfl

/-- Witness for C8: the concrete valid run returns a present value. -/
theorem loadFromString_never_undefined_witness :
    (some (SecurityConfig.ofValues (some exampleValues))).isSome = true :=
  loadFromString_never_undefined exampleLoader "valid"
    (some (SecurityConfig.ofValues (some exampleValues))) rfl

/-- C9: the constructor applies `Object.assign` as a shallow merge: every
top-level field present on `values` replaces the corresponding default
wholesale (no recursive merging of nested class defaults), and every
top-level field absent from `values` keeps its class default. -/
theorem constructor_shallow_merge (values : SecurityConfigValues) :
    ((∀ x, values.centralSecurityServices = some x →
        (SecurityConfig.ofValues (some values)).centralSecurityServices = x) ∧
     (values.centralSecurityServices = none →
        (SecurityConfig.ofValues (some values)).centralSecurityServices =
          CentralSecurityServicesConfig.default)) ∧
    ((∀ x, values.accessAnalyzer = some x →
        (SecurityConfig.ofValues (some values)).accessAnalyzer = x) ∧
     (values.accessAnalyzer = none →
        (SecurityConfig.ofValues (some values)).accessAnalyzer =
          AccessAnalyzerConfig.default)) ∧
    ((∀ x, values.iamPasswordPolicy = some x →
        (SecurityConfig.ofValues (some values)).iamPasswordPolicy = x) ∧
     (values.iamPasswordPolicy = none →
        (SecurityConfig.ofValues (some values)).iamPasswordPolicy =
          IamPasswordPolicyConfig.default)) ∧
    ((∀ x, values.awsConfig = some x →
        (SecurityConfig.ofValues (some values)).awsConfig = x) ∧
     (values.awsConfig = none →
        (SecurityConfig.ofValues (some values)).awsConfig =
          AwsConfig.default)) ∧
    ((∀ x, values.cloudWatch = some x →
        (SecurityConfig.ofValues (some values)).cloudWatch = x) ∧
     (values.cloudWatch = none →
        (SecurityConfig.ofValues (some values)).cloudWatch =
          CloudWatchConfig.default)) ∧
    ((∀ x, values.keyManagementService = some x →
        (SecurityConfig.ofValues (some values)).keyManagementService = x) ∧
     (values.keyManagementService = none →
        (SecurityConfig.ofValues (some values)).keyManagementService =
          KeyManagementServiceConfig.default)) := by
  refine ⟨⟨fun x h => ?_, fun h => ?_⟩, ⟨fun x h => ?_, fun h => ?_⟩,
         ⟨fun x h => ?_, fun h => ?_⟩, ⟨fun x h => ?_, fun h => ?_⟩,
         ⟨fun x h => ?_, fun h => ?_⟩, ⟨fun x h => ?_, fun h => ?_⟩⟩ <;>
    simp only [SecurityConfig.ofValues, SecurityConfig.default, h,
               Option.getD_some, Option.getD_none]

/-- Witness for C9: on the concrete parsed values, the supplied
`centralSecurityServices` section replaces the default wholesale while the
absent `keyManagementService` keeps its class default. -/
theorem constructor_shallow_merge_witness :
    (SecurityConfig.ofValues (some exampleValues)).accessAnalyzer =
      { enable := true } ∧
    (SecurityConfig.ofValues (some exampleValues)).keyManagementService =
      KeyManagementServiceConfig.default :=
  ⟨(constructor_shallow_merge exampleValues).2.1.1 { enable := true } rfl,
   (constructor_shallow_merge exampleValues).2.2.2.2.2.2 rfl⟩

/-- C10: `getDelegatedAccountName` returns exactly
`centralSecurityServices.delegatedAdminAccount` (it is a pure read,
embedded as a function with no state change), and on the no-argument
construction it returns `'Audit'`. -/
theorem getDelegatedAccountName_returns_field :
    (∀ cfg : SecurityConfig,
      cfg.getDelegatedAccountName =
        cfg.centralSecurityServices.delegatedAdminAccount) ∧
    (SecurityConfig.ofValues none).getDelegatedAccountName = "Audit" :=
  ⟨fun _ => rfl, rfl⟩

end LZA
